import Mathlib

/-!
Verification development for the "Tag the Blob" game-state core.

The definitions below are a shallow embedding of the TypeScript sources:

* `src/src/store/gameStore.ts` — the canonical zustand store
  (`updatePlayerPosition`, `tagPlayer`, `endRound`, `startGame`,
  `collectPowerUp`, `activatePowerUp`, `moveBots`, `addNetworkPlayer`, …).
* `src/components/Blob.tsx` — keyboard movement, collision
  detection and the speed computation inside `useFrame`.
* An alternate iteration of the store kept in the repository, whose
  `updatePlayerPosition` and `collectPowerUp` differ; those are embedded as
  `updatePlayerPositionAlt` / `collectPowerUpAlt`.
* An alternate `PowerUp` component whose collision check skips players that
  already hold a power-up (`powerUpCollisionCollects`).

Conventions:
* JavaScript objects used as string-keyed dictionaries become association
  lists (`List (String × _)`); spread-update `\x7b...m, [k]: v\x7d` keeps an
  existing key in place (`mapInsert`), `delete m[k]` removes the key
  (`mapErase`), `m[k]` is `mapLookup`.
* Timestamps (`Date.now()`) are integer milliseconds, passed explicitly.
* Coordinates are rationals.  `Vector3.distanceTo p q < r` (with `r ≥ 0`)
  is embedded as the squared comparison `distSq p q < r ^ 2`, which avoids
  the square root and is equivalent for nonnegative radii.
* `Vector3.normalize` (a square root) and `Math.random` have no exact
  rational value; functions that use them take the produced vector or
  number as an explicit oracle argument and the theorems quantify over it.
* JavaScript truthiness on numbers (`x || d`, `x &&`) treats `0` as falsy;
  `jsOr` and `jsTruthy` embed this faithfully.
-/

set_option maxHeartbeats 1000000

namespace TagTheBlob

/-- 3-D vector with rational coordinates (embedding of `THREE.Vector3`). -/
structure Vec3 where
  x : ℚ
  y : ℚ
  z : ℚ
deriving DecidableEq, Repr

def Vec3.add (a b : Vec3) : Vec3 := ⟨a.x + b.x, a.y + b.y, a.z + b.z⟩

def Vec3.sub (a b : Vec3) : Vec3 := ⟨a.x - b.x, a.y - b.y, a.z - b.z⟩

def Vec3.smul (c : ℚ) (a : Vec3) : Vec3 := ⟨c * a.x, c * a.y, c * a.z⟩

/-- Squared Euclidean distance; `distanceTo p q < r` is embedded as
`distSq p q < r ^ 2` for nonneg `r`. -/
def distSq (a b : Vec3) : ℚ :=
  (a.x - b.x) ^ 2 + (a.y - b.y) ^ 2 + (a.z - b.z) ^ 2

/-- `PlayerType = 'human' | 'bot'`. -/
inductive PlayerType where
  | human
  | bot
deriving DecidableEq, Repr

/-- The non-null part of `PowerUpType = 'speed' | 'invisibility' | 'flight' | null`;
the nullable string itself is `Option PowerUpKind`. -/
inductive PowerUpKind where
  | speed
  | invisibility
  | flight
deriving DecidableEq, Repr

/-- The `Player` interface of `gameStore.ts`. -/
structure Player where
  id : String
  position : Vec3
  rotation : ℚ
  color : String
  isIt : Bool
  name : String
  type : PlayerType
  isAlive : Bool
  taggedTime : Option Int
  powerUp : Option PowerUpKind
  powerUpEndTime : Option Int
  scale : ℚ
deriving DecidableEq, Repr

/-- The `PowerUp` interface of `gameStore.ts`. -/
structure PowerUp where
  id : String
  type : Option PowerUpKind
  position : Vec3
  createdAt : Int
deriving DecidableEq, Repr

/-- The mutable slice of the zustand `GameState` that the embedded
operations read and write. -/
structure GameState where
  isGameActive : Bool
  roundStartTime : Option Int
  roundEndTime : Option Int
  roundDuration : Int
  roundNumber : Int
  players : List (String × Player)
  localPlayerId : Option String
  powerUps : List (String × PowerUp)
  survivalTimes : List (String × Int)
deriving DecidableEq, Repr

/-- JavaScript `x || d` on an optional number: `0` is falsy. -/
def jsOr (x : Option Int) (d : Int) : Int :=
  match x with
  | some v => if v = 0 then d else v
  | none => d

/-- JavaScript truthiness of an optional number: `null` and `0` are falsy. -/
def jsTruthy (x : Option Int) : Bool :=
  match x with
  | some v => !(v == 0)
  | none => false

/-- Dictionary lookup `m[k]`. -/
def mapLookup {α : Type} (m : List (String × α)) (k : String) : Option α :=
  match m with
  | [] => none
  | (k', v) :: rest => if k' = k then some v else mapLookup rest k

/-- Spread update `\x7b ...m, [k]: v \x7d`: an existing key keeps its position
and gets the new value, a new key is appended. -/
def mapInsert {α : Type} (m : List (String × α)) (k : String) (v : α) :
    List (String × α) :=
  match m with
  | [] => [(k, v)]
  | (k', v') :: rest =>
      if k' = k then (k, v) :: rest else (k', v') :: mapInsert rest k v

/-- `delete m[k]`. -/
def mapErase {α : Type} (m : List (String × α)) (k : String) :
    List (String × α) :=
  m.filter (fun kv => !(kv.1 == k))

/-- `player.powerUp === k && player.powerUpEndTime && player.powerUpEndTime > Date.now()`:
the active-window test used throughout `Blob.tsx` and the store. -/
def kindActive (k : PowerUpKind) (p : Player) (now : Int) : Bool :=
  match p.powerUp, p.powerUpEndTime with
  | some k', some t => k' == k && !(t == 0) && decide (t > now)
  | _, _ => false

/-- `player.powerUp && player.powerUpEndTime && player.powerUpEndTime > Date.now()`:
the kind-agnostic active-window test of the alternate store iteration. -/
def anyActive (p : Player) (now : Int) : Bool :=
  match p.powerUp, p.powerUpEndTime with
  | some _, some t => !(t == 0) && decide (t > now)
  | _, _ => false

/-- Number of untagged, alive players: the emptiness of this set is what
`tagPlayer` checks before scheduling `endRound` one second later. -/
def untaggedAliveCount (players : List (String × Player)) : Nat :=
  (players.filter (fun kv => !kv.2.isIt && kv.2.isAlive)).length

/-- `updatePlayerPosition` of the canonical store: overwrite the player's
position and rotation with the supplied values (no clamping, no modifier). -/
def updatePlayerPosition (s : GameState) (id : String) (position : Vec3)
    (rotation : ℚ) : GameState :=
  match mapLookup s.players id with
  | none => s
  | some player =>
      let updated := { player with position := position, rotation := rotation }
      { s with players := mapInsert s.players id updated }

/-- `tagPlayer`'s `tagCount`: 1 (for the original "it") plus the number of
players that are "it" with a (truthy) `taggedTime`. -/
def tagPlayerTagCount (s : GameState) : Nat :=
  1 + (s.players.filter
        (fun kv => kv.2.isIt && jsTruthy kv.2.taggedTime)).length

/-- `tagPlayer`'s `newScale = Math.min(1 + tagCount * 0.1, 2)` for the
tagger. -/
def tagPlayerNewScale (s : GameState) : ℚ :=
  min (1 + (tagPlayerTagCount s : ℚ) * 0.1) 2

/-- The update `tagPlayer` applies to the tagged player: becomes "it",
`taggedTime = now`, power-up cleared, fresh-"it" scale 1.1. -/
def taggedUpdate (p : Player) (now : Int) : Player :=
  { p with
    isIt := true, taggedTime := some now,
    powerUp := none, powerUpEndTime := none, scale := (1.1 : ℚ) }

/-- `tagPlayer` of the canonical store.  The guard is
`!taggedPlayer || !taggerPlayer || taggedPlayer.isIt || !taggerPlayer.isIt || !taggedPlayer.isAlive`;
on success the tagged player becomes "it" (scale 1.1, power-up cleared), the
tagger's scale becomes `min(1 + tagCount * 0.1, 2)` (the source's `tagCount`
and `newScale` let-bindings are the defs above), and the tagged player's
survival time `now - (roundStartTime || 0)` is recorded. -/
def tagPlayer (s : GameState) (taggedId taggerId : String) (now : Int) :
    GameState :=
  match mapLookup s.players taggedId, mapLookup s.players taggerId with
  | some taggedPlayer, some taggerPlayer =>
      if taggedPlayer.isIt || !taggerPlayer.isIt || !taggedPlayer.isAlive then s
      else
        { s with
          players :=
            mapInsert
              (mapInsert s.players taggedId (taggedUpdate taggedPlayer now))
              taggerId ({ taggerPlayer with scale := tagPlayerNewScale s }),
          survivalTimes :=
            mapInsert s.survivalTimes taggedId (now - jsOr s.roundStartTime 0) }
  | _, _ => s

/-- Unfolding `tagPlayer` once the two lookups are known. -/
theorem tagPlayer_eq_of_lookups (s : GameState) (taggedId taggerId : String)
    (now : Int) (tp gp : Player)
    (htp : mapLookup s.players taggedId = some tp)
    (hgp : mapLookup s.players taggerId = some gp) :
    tagPlayer s taggedId taggerId now =
      if (tp.isIt || !gp.isIt || !tp.isAlive) = true then s
      else
        { s with
          players :=
            mapInsert (mapInsert s.players taggedId (taggedUpdate tp now))
              taggerId ({ gp with scale := tagPlayerNewScale s }),
          survivalTimes :=
            mapInsert s.survivalTimes taggedId
              (now - jsOr s.roundStartTime 0) } := by
  unfold tagPlayer
  rw [htp, hgp]

/-- `endRound` of the canonical store: for each player that is not "it", the
frozen record is `(player.taggedTime || now) - (roundStartTime || 0)`; the
previous `survivalTimes` map is replaced wholesale. -/
def endRound (s : GameState) (now : Int) : GameState :=
  let roundStartTime := jsOr s.roundStartTime 0
  let survivalTimes := s.players.filterMap (fun kv =>
    if !kv.2.isIt then some (kv.1, jsOr kv.2.taggedTime now - roundStartTime)
    else none)
  { s with isGameActive := false, roundEndTime := some now,
           survivalTimes := survivalTimes }

/-- The bot-adding loop of `startGame`: when fewer than 5 players are
registered, `5 - playerCount` calls to `addPlayer('bot')` insert the freshly
generated bot records into the live store. -/
def startGameAddBots (players : List (String × Player)) (newBots : List Player) :
    List (String × Player) :=
  if players.length < 5 then
    (newBots.take (5 - players.length)).foldl
      (fun acc b => mapInsert acc b.id b) players
  else players

/-- `startGame` of the canonical store.  `newBots` are the bot records the
`addPlayer('bot')` calls generate (their random attributes made explicit) and
`rIdx` is the value of `Math.floor(Math.random() * playerIds.length)`.
Both `playerIds` and `updatedPlayers` are computed from the `players`
snapshot taken at entry — before the bots were added — and the final `set`
overwrites the players map with `updatedPlayers`, so the interim store
contents produced by `startGameAddBots` are discarded. -/
def startGame (s : GameState) (newBots : List Player) (rIdx : Nat)
    (now : Int) : GameState :=
  let players := s.players
  let s1 : GameState := { s with players := startGameAddBots s.players newBots }
  let playerIds := players.map Prod.fst
  let itPlayerId := (playerIds.get? rIdx).getD ""
  let updatedPlayers := players.map (fun kv =>
    (kv.1, { kv.2 with
      isIt := kv.1 == itPlayerId,
      isAlive := true,
      taggedTime := if kv.1 == itPlayerId then some now else none,
      powerUp := none,
      powerUpEndTime := none,
      scale := if kv.1 == itPlayerId then (1.2 : ℚ) else 1 }))
  { s1 with
    isGameActive := true,
    roundStartTime := some now,
    roundEndTime := none,
    roundNumber := s1.roundNumber + 1,
    players := updatedPlayers,
    powerUps := [],
    survivalTimes := [] }

/-- `addNetworkPlayer`: store the received player record under its id,
overwriting any existing record with that id. -/
def addNetworkPlayer (s : GameState) (player : Player) : GameState :=
  { s with players := mapInsert s.players player.id player }

/-- The payload of the `roundStart` network event. -/
structure RoundStartData where
  startTime : Int
  roundNumber : Int
  players : List (String × Player)

/-- `syncRoundStart`: adopt the broadcast round data wholesale. -/
def syncRoundStart (s : GameState) (data : RoundStartData) : GameState :=
  { s with isGameActive := true, roundStartTime := some data.startTime,
           roundNumber := data.roundNumber, players := data.players }

/-- The state transition of `addPlayer` (the generated player record, whose
id/name/color/position are produced by the surrounding code, is passed in). -/
def addPlayer (s : GameState) (typ : PlayerType) (newPlayer : Player) :
    GameState :=
  { s with
    players := mapInsert s.players newPlayer.id newPlayer,
    localPlayerId :=
      if typ == PlayerType.human && s.localPlayerId == none then
        some newPlayer.id
      else s.localPlayerId }

/-- `removePlayer`: delete the record and clear `localPlayerId` when the
removed player was the local one. -/
def removePlayer (s : GameState) (id : String) : GameState :=
  { s with
    players := mapErase s.players id,
    localPlayerId :=
      if s.localPlayerId == some id then none else s.localPlayerId }

/-- `addPowerUp`: register a new power-up (the generated uuid is passed in). -/
def addPowerUp (s : GameState) (type : Option PowerUpKind) (position : Vec3)
    (powerUpId : String) (now : Int) : GameState :=
  { s with powerUps :=
      mapInsert s.powerUps powerUpId ⟨powerUpId, type, position, now⟩ }

/-- `collectPowerUp` of the canonical store: guard
`!player || !powerUp || player.isIt`; on success the pickup's kind is written
into `player.powerUp` (whatever was held before is overwritten) and the
pickup is removed from the pool.  `powerUpEndTime` is not touched. -/
def collectPowerUp (s : GameState) (playerId powerUpId : String) : GameState :=
  match mapLookup s.players playerId, mapLookup s.powerUps powerUpId with
  | some player, some powerUp =>
      if player.isIt then s
      else
        let updated := { player with powerUp := powerUp.type }
        { s with
          players := mapInsert s.players playerId updated,
          powerUps := mapErase s.powerUps powerUpId }
  | _, _ => s

/-- `activatePowerUp`: guard `!player || !player.powerUp || player.powerUpEndTime`;
on success `powerUpEndTime` becomes `Date.now() + 5000`. -/
def activatePowerUp (s : GameState) (playerId : String) (now : Int) :
    GameState :=
  match mapLookup s.players playerId with
  | none => s
  | some player =>
      if player.powerUp == none || jsTruthy player.powerUpEndTime then s
      else
        let updated := { player with powerUpEndTime := some (now + 5000) }
        { s with players := mapInsert s.players playerId updated }

/-- The body of the `setTimeout(..., 5000)` scheduled by `activatePowerUp`:
clear the player's power-up and its end time. -/
def deactivatePowerUp (s : GameState) (playerId : String) : GameState :=
  match mapLookup s.players playerId with
  | none => s
  | some player =>
      let updated := { player with powerUp := none, powerUpEndTime := none }
      { s with players := mapInsert s.players playerId updated }

/-- `Math.max(-ARENA_SIZE/2, Math.min(ARENA_SIZE/2, q))` with
`ARENA_SIZE = 40`, as used in `Blob`'s `useFrame` and in `moveBots`. -/
def clampHalfArena (q : ℚ) : ℚ :=
  max (-(40 : ℚ) / 2) (min ((40 : ℚ) / 2) q)

/-- The nearest-"it" scan of `moveBots`: starting from `itPlayers[0]`, each
strictly closer "it" player replaces the current best (squared distances,
which order exactly as the source's true distances). -/
def nearestItScan (pos : Vec3) (itPlayers : List Player) (best : Player × ℚ) :
    Player × ℚ :=
  match itPlayers with
  | [] => best
  | it :: rest =>
      if distSq pos it.position < best.2 then
        nearestItScan pos rest (it, distSq pos it.position)
      else nearestItScan pos rest best

/-- One bot's update inside `moveBots`.  `norm` stands for
`Vector3.normalize` (its square root has no exact rational value), `at2` for
`Math.atan2`, and `r` for the two `Math.random()` draws of the random-walk
branch; the theorems quantify over all of them.  Each source branch mutates
only `bot.position` (and, in the pursue/flee branches, `bot.rotation`), so
the branches are embedded as a `(position, rotation)` pair followed by one
record update.  The final clamp keeps x and z inside
`[-ARENA_SIZE/2, ARENA_SIZE/2] = [-20, 20]`. -/
def moveBotTarget (bot : Player) (humans : List Player)
    (itPlayers : List Player) (norm : Vec3 → Vec3) (at2 : ℚ → ℚ → ℚ)
    (r : ℚ × ℚ) : Vec3 × ℚ :=
  let botSpeed : ℚ := if bot.isIt then 0.15 else 0.1
  if bot.isIt then
      match humans.find? (fun h => !h.isIt) with
      | some target =>
          let direction :=
            Vec3.smul botSpeed (norm (Vec3.sub target.position bot.position))
          (Vec3.add bot.position direction, at2 direction.x direction.z)
      | none =>
          (⟨bot.position.x + (r.1 - 0.5) * botSpeed, bot.position.y,
            bot.position.z + (r.2 - 0.5) * botSpeed⟩, bot.rotation)
    else
      match itPlayers with
      | [] =>
          (⟨bot.position.x + (r.1 - 0.5) * botSpeed, bot.position.y,
            bot.position.z + (r.2 - 0.5) * botSpeed⟩, bot.rotation)
      | it0 :: _ =>
          let best :=
            nearestItScan bot.position itPlayers
              (it0, distSq bot.position it0.position)
          if best.2 < 100 then
            let direction :=
              Vec3.smul botSpeed (norm (Vec3.sub bot.position best.1.position))
            (Vec3.add bot.position direction, at2 direction.x direction.z)
          else
            (⟨bot.position.x + (r.1 - 0.5) * botSpeed, bot.position.y,
              bot.position.z + (r.2 - 0.5) * botSpeed⟩, bot.rotation)

/-- One bot's full update: the branch result of `moveBotTarget`, with x and z
clamped by the final `Math.max(-ARENA_SIZE/2, Math.min(ARENA_SIZE/2, ...))`
of the source. -/
def moveBotStep (bot : Player) (humans : List Player)
    (itPlayers : List Player) (norm : Vec3 → Vec3) (at2 : ℚ → ℚ → ℚ)
    (r : ℚ × ℚ) : Player :=
  let moved := moveBotTarget bot humans itPlayers norm at2 r
  { bot with
    position :=
      ⟨clampHalfArena moved.1.x, moved.1.y, clampHalfArena moved.1.z⟩,
    rotation := moved.2 }

/-- `Object.values(state.players).filter(p => p.type === 'human' && p.isAlive)`:
the human list `moveBots` lets "it" bots chase. -/
def moveBotsHumans (s : GameState) : List Player :=
  (s.players.filter
    (fun kv => kv.2.type == PlayerType.human && kv.2.isAlive)).map Prod.snd

/-- `Object.values(state.players).filter(p => p.isIt && p.isAlive)`: the
"it" list untagged bots flee from. -/
def moveBotsIts (s : GameState) : List Player :=
  (s.players.filter (fun kv => kv.2.isIt && kv.2.isAlive)).map Prod.snd

/-- `moveBots` of the canonical store: every alive bot is moved by
`moveBotStep`; all other records are returned unchanged, and no other state
field is part of the returned update. -/
def moveBots (s : GameState) (norm : Vec3 → Vec3) (at2 : ℚ → ℚ → ℚ)
    (rnd : String → ℚ × ℚ) : GameState :=
  { s with players := s.players.map (fun kv =>
      if kv.2.type == PlayerType.bot && kv.2.isAlive then
        (kv.1, moveBotStep kv.2 (moveBotsHumans s) (moveBotsIts s) norm at2
          (rnd kv.1))
      else kv) }

/-- The speed computation of the `Blob` component's `useFrame`:
`baseSpeed = 0.1`, multiplied by `1.1` when the player is "it" and by `1.5`
while the speed power-up window is active. -/
def blobComputeSpeed (p : Player) (now : Int) : ℚ :=
  let speed : ℚ := 0.1
  let speed := if p.isIt then speed * 1.1 else speed
  if kindActive PowerUpKind.speed p now then speed * 1.5 else speed

/-- The position update of `Blob`'s `useFrame` movement branch:
`newPosition = player.position + currentVelocity`, x and z clamped to the
arena, y forced to 3 during an active flight window and 1 otherwise. -/
def blobApplyMovement (p : Player) (velocity : Vec3) (now : Int) : Vec3 :=
  let np := Vec3.add p.position velocity
  ⟨clampHalfArena np.x,
   if kindActive PowerUpKind.flight p now then 3 else 1,
   clampHalfArena np.z⟩

/-- The position update of `Blob`'s `useFrame` deceleration branch: the
decayed velocity is added and x, z are clamped (y is left as computed). -/
def blobApplyDeceleration (p : Player) (velocity : Vec3) : Vec3 :=
  let np := Vec3.add p.position velocity
  ⟨clampHalfArena np.x, np.y, clampHalfArena np.z⟩

/-- The skip conditions of `Blob`'s `checkCollisions` for a candidate
`other` seen from the "it" player `self`: same id, already "it", not alive,
active flight, or active invisibility when the evaluator is not the local
player. -/
def blobSkipsCandidate (selfId : String) (other : Player)
    (isLocalPlayer : Bool) (now : Int) : Bool :=
  other.id == selfId || other.isIt || !other.isAlive ||
    kindActive PowerUpKind.flight other now ||
    (kindActive PowerUpKind.invisibility other now && !isLocalPlayer)

/-- `Blob`'s collision predicate
`distance < 2.0 * (player.scale + otherPlayer.scale) / 2`, in squared form. -/
def blobCollisionHit (a b : Player) : Bool :=
  decide (distSq a.position b.position < (2 * (a.scale + b.scale) / 2) ^ 2)

/-- The `newPosition` computation of the alternate `updatePlayerPosition`:
during an active window, `speed` turns the relayed delta into `3 ×` the
movement and `flight` into `2 ×` with y pinned to 2; after a flight window
y is reset to 1; otherwise the supplied position is kept. -/
def updateAltNewPosition (player : Player) (position : Vec3) (now : Int) :
    Vec3 :=
  if anyActive player now then
    if player.powerUp == some PowerUpKind.speed then
      let currentPos := player.position
      let movement := Vec3.sub position currentPos
      Vec3.add currentPos (Vec3.smul 3 movement)
    else if player.powerUp == some PowerUpKind.flight then
      let currentPos := player.position
      let movement := Vec3.sub position currentPos
      let np := Vec3.add currentPos (Vec3.smul 2 movement)
      ⟨np.x, 2, np.z⟩
    else position
  else
    if player.powerUp == some PowerUpKind.flight then
      ⟨position.x, 1, position.z⟩
    else position

/-- `updatePlayerPosition` of the alternate store iteration: stores
`updateAltNewPosition` and the supplied rotation. -/
def updatePlayerPositionAlt (s : GameState) (id : String) (position : Vec3)
    (rotation : ℚ) (now : Int) : GameState :=
  match mapLookup s.players id with
  | none => s
  | some player =>
      let updated :=
        { player with
          position := updateAltNewPosition player position now,
          rotation := rotation }
      { s with players := mapInsert s.players id updated }

/-- `collectPowerUp` of the alternate store iteration: same guard as the
canonical one, but a replacement pickup (whose random id, kind and position
are passed in) is spawned, and the collected power-up is activated on the
spot: `powerUpEndTime = Date.now() + 5000`, with y pinned to 2 for flight. -/
def collectPowerUpAlt (s : GameState) (playerId powerUpId : String)
    (newPowerUpId : String) (newType : Option PowerUpKind) (newPos : Vec3)
    (now : Int) : GameState :=
  match mapLookup s.players playerId, mapLookup s.powerUps powerUpId with
  | some player, some powerUp =>
      if player.isIt then s
      else
        let newPowerUps :=
          mapErase
            (mapInsert s.powerUps newPowerUpId
              ⟨newPowerUpId, newType, newPos, now⟩)
            powerUpId
        let powerUpEndTime := now + 5000
        let newPosition :=
          if powerUp.type == some PowerUpKind.flight then
            (⟨player.position.x, 2, player.position.z⟩ : Vec3)
          else player.position
        let updated :=
          { player with
            powerUp := powerUp.type,
            powerUpEndTime := some powerUpEndTime,
            position := newPosition }
        { s with
          players := mapInsert s.players playerId updated,
          powerUps := newPowerUps }
  | _, _ => s

/-- The collision condition of the canonical `PowerUp.tsx` component: a
player collects when it is not "it", alive and within radius 2.5 — holding a
power-up already does not prevent collection. -/
def powerUpComponentCollects (p : Player) (puPosition : Vec3) : Bool :=
  !p.isIt && p.isAlive &&
    decide (distSq p.position puPosition < (2.5 : ℚ) ^ 2)

/-- The collision condition of the alternate `PowerUp` component iteration:
it additionally requires `!player.powerUp` (radius 3.75). -/
def powerUpCollisionCollects (p : Player) (puPosition : Vec3) : Bool :=
  !p.isIt && p.isAlive && p.powerUp == none &&
    decide (distSq p.position puPosition < (3.75 : ℚ) ^ 2)

section MapLemmas

variable {α β : Type}

theorem mapLookup_nil (k : String) :
    mapLookup ([] : List (String × α)) k = none := rfl

theorem mapLookup_cons (k₀ : String) (v₀ : α) (rest : List (String × α))
    (k : String) :
    mapLookup ((k₀, v₀) :: rest) k =
      if k₀ = k then some v₀ else mapLookup rest k := rfl

theorem mapInsert_nil (k : String) (v : α) :
    mapInsert ([] : List (String × α)) k v = [(k, v)] := rfl

theorem mapInsert_cons (k₀ : String) (v₀ : α) (rest : List (String × α))
    (k : String) (v : α) :
    mapInsert ((k₀, v₀) :: rest) k v =
      if k₀ = k then (k, v) :: rest else (k₀, v₀) :: mapInsert rest k v := rfl

theorem mapErase_nil (k : String) :
    mapErase ([] : List (String × α)) k = [] := rfl

theorem mapErase_cons (k₀ : String) (v₀ : α) (rest : List (String × α))
    (k : String) :
    mapErase ((k₀, v₀) :: rest) k =
      if k₀ = k then mapErase rest k else (k₀, v₀) :: mapErase rest k := by
  by_cases h : k₀ = k <;> simp [mapErase, List.filter_cons, h]

theorem mapLookup_mapInsert_self (m : List (String × α)) (k : String) (v : α) :
    mapLookup (mapInsert m k v) k = some v := by
  induction m with
  | nil => simp [mapInsert_nil, mapLookup_cons]
  | cons kv rest ih =>
      obtain ⟨k₀, v₀⟩ := kv
      rw [mapInsert_cons]
      by_cases h : k₀ = k
      · rw [if_pos h, mapLookup_cons, if_pos rfl]
      · rw [if_neg h, mapLookup_cons, if_neg h]
        exact ih

theorem mapLookup_mapInsert_ne (m : List (String × α)) (k k' : String)
    (v : α) (h : k' ≠ k) :
    mapLookup (mapInsert m k v) k' = mapLookup m k' := by
  induction m with
  | nil =>
      rw [mapInsert_nil, mapLookup_cons, if_neg (Ne.symm h), mapLookup_nil]
  | cons kv rest ih =>
      obtain ⟨k₀, v₀⟩ := kv
      rw [mapInsert_cons]
      by_cases h₀ : k₀ = k
      · subst h₀
        rw [if_pos rfl, mapLookup_cons, if_neg (Ne.symm h), mapLookup_cons,
          if_neg (Ne.symm h)]
      · rw [if_neg h₀, mapLookup_cons, mapLookup_cons]
        by_cases h₁ : k₀ = k'
        · rw [if_pos h₁, if_pos h₁]
        · rw [if_neg h₁, if_neg h₁]
          exact ih

theorem mapLookup_mapErase_self (m : List (String × α)) (k : String) :
    mapLookup (mapErase m k) k = none := by
  induction m with
  | nil => rw [mapErase_nil, mapLookup_nil]
  | cons kv rest ih =>
      obtain ⟨k₀, v₀⟩ := kv
      rw [mapErase_cons]
      by_cases h : k₀ = k
      · rw [if_pos h]
        exact ih
      · rw [if_neg h, mapLookup_cons, if_neg h]
        exact ih

theorem mapLookup_mapErase_ne (m : List (String × α)) (k k' : String)
    (h : k' ≠ k) :
    mapLookup (mapErase m k) k' = mapLookup m k' := by
  induction m with
  | nil => rw [mapErase_nil]
  | cons kv rest ih =>
      obtain ⟨k₀, v₀⟩ := kv
      rw [mapErase_cons]
      by_cases h₀ : k₀ = k
      · subst h₀
        rw [if_pos rfl, mapLookup_cons, if_neg fun hh => h hh.symm]
        exact ih
      · rw [if_neg h₀, mapLookup_cons, mapLookup_cons]
        by_cases h₁ : k₀ = k'
        · rw [if_pos h₁, if_pos h₁]
        · rw [if_neg h₁, if_neg h₁]
          exact ih

/-- Looking a key up after a key-preserving conditional map (the shape of the
`players` update in `moveBots` and `startGame`). -/
theorem mapLookup_map_cond (m : List (String × α)) (c : α → Bool)
    (g : String → α → α) (k : String) :
    mapLookup (m.map (fun kv => if c kv.2 then (kv.1, g kv.1 kv.2) else kv)) k
      = (mapLookup m k).map (fun v => if c v then g k v else v) := by
  induction m with
  | nil => rfl
  | cons kv rest ih =>
      obtain ⟨k₀, v₀⟩ := kv
      rw [List.map_cons]
      by_cases hc : c v₀ <;> by_cases h₀ : k₀ = k
      · subst h₀
        simp [hc, mapLookup_cons]
      · simp only [hc, if_true]
        rw [mapLookup_cons, mapLookup_cons, if_neg h₀, if_neg h₀, ih]
      · subst h₀
        simp [hc, mapLookup_cons]
      · simp only [hc, Bool.false_eq_true, if_false]
        rw [mapLookup_cons, mapLookup_cons, if_neg h₀, if_neg h₀, ih]

/-- Keys absent from a dictionary look up to `none`. -/
theorem mapLookup_eq_none_of_not_mem (m : List (String × α)) (k : String)
    (h : k ∉ m.map Prod.fst) : mapLookup m k = none := by
  induction m with
  | nil => rw [mapLookup_nil]
  | cons kv rest ih =>
      obtain ⟨k₀, v₀⟩ := kv
      rw [List.map_cons, List.mem_cons] at h
      push_neg at h
      rw [mapLookup_cons, if_neg fun hh => h.1 hh.symm]
      exact ih h.2

/-- Looking up a surviving entry of the key-preserving `filterMap` used by
`endRound`: the first entry with key `k` passes the filter, so its image is
found. -/
theorem mapLookup_filterMapIf_pos (m : List (String × α)) (c : α → Bool)
    (g : String → α → β) (k : String) (v : α)
    (hv : mapLookup m k = some v) (hc : c v = true) :
    mapLookup
      (m.filterMap (fun kv => if c kv.2 then some (kv.1, g kv.1 kv.2) else none))
      k = some (g k v) := by
  induction m with
  | nil => exact absurd hv (by simp [mapLookup_nil])
  | cons kv rest ih =>
      obtain ⟨k₀, v₀⟩ := kv
      rw [mapLookup_cons] at hv
      by_cases h₀ : k₀ = k
      · rw [if_pos h₀] at hv
        injection hv with hv
        subst hv
        subst h₀
        simp [List.filterMap_cons, hc, mapLookup_cons]
      · rw [if_neg h₀] at hv
        by_cases hc₀ : c v₀ <;>
          simp [List.filterMap_cons, hc₀, mapLookup_cons, h₀, ih hv]

/-- Looking up a dropped entry of the key-preserving `filterMap` used by
`endRound`: with no duplicate keys, a first entry that fails the filter means
the key is gone. -/
theorem mapLookup_filterMapIf_neg (m : List (String × α)) (c : α → Bool)
    (g : String → α → β) (k : String) (v : α)
    (hnd : (m.map Prod.fst).Nodup)
    (hv : mapLookup m k = some v) (hc : c v = false) :
    mapLookup
      (m.filterMap (fun kv => if c kv.2 then some (kv.1, g kv.1 kv.2) else none))
      k = none := by
  induction m with
  | nil => exact absurd hv (by simp [mapLookup_nil])
  | cons kv rest ih =>
      obtain ⟨k₀, v₀⟩ := kv
      rw [List.map_cons, List.nodup_cons] at hnd
      rw [mapLookup_cons] at hv
      by_cases h₀ : k₀ = k
      · rw [if_pos h₀] at hv
        injection hv with hv
        subst hv
        subst h₀
        simp only [List.filterMap_cons, hc, Bool.false_eq_true, if_false]
        apply mapLookup_eq_none_of_not_mem
        intro hmem
        apply hnd.1
        obtain ⟨⟨k₁, v₁⟩, hk₁, hk₂⟩ := List.mem_map.mp hmem
        obtain ⟨⟨k₂, v₂⟩, hk₃, hk₄⟩ := List.mem_filterMap.mp hk₁
        by_cases hcv : c v₂
        · rw [if_pos hcv] at hk₄
          injection hk₄ with hk₅
          rw [← hk₅] at hk₂
          simp only at hk₂
          subst hk₂
          exact List.mem_map.mpr ⟨(k₂, v₂), hk₃, rfl⟩
        · rw [if_neg hcv] at hk₄
          exact absurd hk₄ (by simp)
      · rw [if_neg h₀] at hv
        by_cases hc₀ : c v₀ <;>
          simp [List.filterMap_cons, hc₀, mapLookup_cons, h₀, ih hnd.2 hv]

end MapLemmas

section Fixtures

/-- A template player record used to build the concrete test states. -/
def basePlayer (id : String) : Player :=
  { id := id, position := ⟨0, 1, 0⟩, rotation := 0, color := "#FF6B6B",
    isIt := false, name := id, type := PlayerType.human, isAlive := true,
    taggedTime := none, powerUp := none, powerUpEndTime := none, scale := 1 }

/-- An empty game state with the store's initial configuration
(`roundDuration = 3 * 60 * 1000`). -/
def baseState : GameState :=
  { isGameActive := false, roundStartTime := none, roundEndTime := none,
    roundDuration := 180000, roundNumber := 0, players := [],
    localPlayerId := none, powerUps := [], survivalTimes := [] }

/-- A fixed value for the `Vector3.normalize` oracle. -/
def constNorm : Vec3 → Vec3 := fun _ => ⟨1, 0, 0⟩

/-- A fixed value for the `Math.atan2` oracle. -/
def constAtan2 : ℚ → ℚ → ℚ := fun _ _ => 0

/-- A fixed value for the `Math.random` oracle. -/
def constRand : String → ℚ × ℚ := fun _ => (0.5, 0.5)

end Fixtures

theorem clampHalfArena_bounds (q : ℚ) :
    -20 ≤ clampHalfArena q ∧ clampHalfArena q ≤ 20 := by
  unfold clampHalfArena
  constructor
  · calc (-20 : ℚ) = -(40 : ℚ) / 2 := by norm_num
    _ ≤ max (-(40 : ℚ) / 2) (min ((40 : ℚ) / 2) q) := le_max_left _ _
  · apply max_le
    · norm_num
    · calc min ((40 : ℚ) / 2) q ≤ (40 : ℚ) / 2 := min_le_left _ _
      _ ≤ 20 := by norm_num

theorem moveBotStep_position_bounds (bot : Player) (humans : List Player)
    (itPlayers : List Player) (norm : Vec3 → Vec3) (at2 : ℚ → ℚ → ℚ)
    (r : ℚ × ℚ) :
    (-20 ≤ (moveBotStep bot humans itPlayers norm at2 r).position.x ∧
      (moveBotStep bot humans itPlayers norm at2 r).position.x ≤ 20) ∧
    (-20 ≤ (moveBotStep bot humans itPlayers norm at2 r).position.z ∧
      (moveBotStep bot humans itPlayers norm at2 r).position.z ≤ 20) :=
  ⟨clampHalfArena_bounds (moveBotTarget bot humans itPlayers norm at2 r).1.x,
   clampHalfArena_bounds (moveBotTarget bot humans itPlayers norm at2 r).1.z⟩

/-- `moveBotStep` rewrites only `position` and `rotation`; every other field
of the bot record comes through unchanged. -/
theorem moveBotStep_frame (bot : Player) (humans : List Player)
    (itPlayers : List Player) (norm : Vec3 → Vec3) (at2 : ℚ → ℚ → ℚ)
    (r : ℚ × ℚ) :
    (moveBotStep bot humans itPlayers norm at2 r).id = bot.id ∧
    (moveBotStep bot humans itPlayers norm at2 r).color = bot.color ∧
    (moveBotStep bot humans itPlayers norm at2 r).isIt = bot.isIt ∧
    (moveBotStep bot humans itPlayers norm at2 r).name = bot.name ∧
    (moveBotStep bot humans itPlayers norm at2 r).type = bot.type ∧
    (moveBotStep bot humans itPlayers norm at2 r).isAlive = bot.isAlive ∧
    (moveBotStep bot humans itPlayers norm at2 r).taggedTime = bot.taggedTime ∧
    (moveBotStep bot humans itPlayers norm at2 r).powerUp = bot.powerUp ∧
    (moveBotStep bot humans itPlayers norm at2 r).powerUpEndTime =
      bot.powerUpEndTime ∧
    (moveBotStep bot humans itPlayers norm at2 r).scale = bot.scale :=
  ⟨rfl, rfl, rfl, rfl, rfl, rfl, rfl, rfl, rfl, rfl⟩

/-- Looking a player up after `moveBots`: the `players` update has the
key-preserving shape of `mapLookup_map_cond`. -/
theorem mapLookup_moveBots (s : GameState) (norm : Vec3 → Vec3)
    (at2 : ℚ → ℚ → ℚ) (rnd : String → ℚ × ℚ) (id : String) :
    mapLookup (moveBots s norm at2 rnd).players id =
      (mapLookup s.players id).map (fun v =>
        if v.type == PlayerType.bot && v.isAlive then
          moveBotStep v (moveBotsHumans s) (moveBotsIts s) norm at2 (rnd id)
        else v) :=
  mapLookup_map_cond s.players
    (fun v => v.type == PlayerType.bot && v.isAlive)
    (fun k v =>
      moveBotStep v (moveBotsHumans s) (moveBotsIts s) norm at2 (rnd k)) id

def c1State : GameState :=
  { baseState with players := [("P1", basePlayer "P1")] }

def c1Bot : Player := { basePlayer "B" with type := PlayerType.bot }

def c1BotState : GameState :=
  { baseState with isGameActive := true, players := [("B", c1Bot)] }

/-- The single bot of `c1BotState` after one `moveBots` tick with the fixed
oracles. -/
def c1MovedBot : Player :=
  moveBotStep c1Bot (moveBotsHumans c1BotState) (moveBotsIts c1BotState)
    constNorm constAtan2 (constRand "B")

/-- C1 (counterexample): the claim says network-relayed movement applied
through `updatePlayerPosition` also lands in `[-20, 20]`, but
`updatePlayerPosition` stores the supplied position without clamping: a
relayed position `(100, 1, 100)` is stored as-is, and `100 > 20`. -/
theorem C1_counterexample :
    (mapLookup (updatePlayerPosition c1State "P1" ⟨100, 1, 100⟩ 0).players
        "P1").map Player.position = some ⟨100, 1, 100⟩ ∧
    ¬((100 : ℚ) ≤ 20) := by
  constructor
  · decide
  · norm_num

/-- C1 (amended): locally-controlled keyboard movement (both the moving and
the decelerating branch of `Blob`'s `useFrame`) and bot movement through
`moveBots` always produce x and z inside `[-20, 20]`, for any input intent
magnitude and any oracle values; `updatePlayerPosition` itself stores the
given position unclamped. -/
theorem C1_movement_within_bounds :
    (∀ (p : Player) (v : Vec3) (now : Int),
      (-20 ≤ (blobApplyMovement p v now).x ∧
        (blobApplyMovement p v now).x ≤ 20) ∧
      (-20 ≤ (blobApplyMovement p v now).z ∧
        (blobApplyMovement p v now).z ≤ 20)) ∧
    (∀ (p : Player) (v : Vec3),
      (-20 ≤ (blobApplyDeceleration p v).x ∧
        (blobApplyDeceleration p v).x ≤ 20) ∧
      (-20 ≤ (blobApplyDeceleration p v).z ∧
        (blobApplyDeceleration p v).z ≤ 20)) ∧
    (∀ (s : GameState) (norm : Vec3 → Vec3) (at2 : ℚ → ℚ → ℚ)
        (rnd : String → ℚ × ℚ) (id : String) (q : Player),
      mapLookup (moveBots s norm at2 rnd).players id = some q →
      q.type = PlayerType.bot → q.isAlive = true →
      (-20 ≤ q.position.x ∧ q.position.x ≤ 20) ∧
      (-20 ≤ q.position.z ∧ q.position.z ≤ 20)) := by
  refine ⟨?_, ?_, ?_⟩
  · intro p v now
    exact ⟨clampHalfArena_bounds _, clampHalfArena_bounds _⟩
  · intro p v
    exact ⟨clampHalfArena_bounds _, clampHalfArena_bounds _⟩
  · intro s norm at2 rnd id q hq htype halive
    rw [mapLookup_moveBots] at hq
    cases hp : mapLookup s.players id with
    | none => rw [hp] at hq; exact absurd hq (by simp)
    | some p =>
        rw [hp] at hq
        simp only [Option.map_some'] at hq
        injection hq with hq
        by_cases hc : p.type == PlayerType.bot && p.isAlive
        · rw [if_pos hc] at hq
          rw [← hq]
          exact moveBotStep_position_bounds _ _ _ _ _ _
        · rw [if_neg hc] at hq
          subst hq
          rw [htype, halive] at hc
          simp at hc

/-- C1 witness: the bounds theorems applied at concrete inputs — a keyboard
intent of magnitude 100 from the origin, and the single bot of `c1BotState`
after one `moveBots` tick with the fixed oracles. -/
theorem C1_movement_within_bounds_witness :
    ((-20 ≤ (blobApplyMovement (basePlayer "P") ⟨100, 0, -100⟩ 0).x ∧
       (blobApplyMovement (basePlayer "P") ⟨100, 0, -100⟩ 0).x ≤ 20) ∧
     (-20 ≤ (blobApplyMovement (basePlayer "P") ⟨100, 0, -100⟩ 0).z ∧
       (blobApplyMovement (basePlayer "P") ⟨100, 0, -100⟩ 0).z ≤ 20)) ∧
    ((-20 ≤ (blobApplyDeceleration (basePlayer "P") ⟨100, 0, -100⟩).x ∧
       (blobApplyDeceleration (basePlayer "P") ⟨100, 0, -100⟩).x ≤ 20) ∧
     (-20 ≤ (blobApplyDeceleration (basePlayer "P") ⟨100, 0, -100⟩).z ∧
       (blobApplyDeceleration (basePlayer "P") ⟨100, 0, -100⟩).z ≤ 20)) ∧
    ((-20 ≤ c1MovedBot.position.x ∧ c1MovedBot.position.x ≤ 20) ∧
     (-20 ≤ c1MovedBot.position.z ∧ c1MovedBot.position.z ≤ 20)) :=
  ⟨C1_movement_within_bounds.1 (basePlayer "P") ⟨100, 0, -100⟩ 0,
   C1_movement_within_bounds.2.1 (basePlayer "P") ⟨100, 0, -100⟩,
   C1_movement_within_bounds.2.2 c1BotState constNorm constAtan2 constRand
     "B" c1MovedBot (by rw [mapLookup_moveBots]; rfl) rfl rfl⟩

/-- `endRound`'s frozen record, unfolded. -/
theorem endRound_survivalTimes (s : GameState) (now : Int) :
    (endRound s now).survivalTimes =
      s.players.filterMap (fun kv =>
        if !kv.2.isIt then
          some (kv.1, jsOr kv.2.taggedTime now - jsOr s.roundStartTime 0)
        else none) := rfl

/-- The original "it" of the round: tagged at round start, boosted scale. -/
def c2PlayerA : Player :=
  { basePlayer "A" with isIt := true, taggedTime := some 1, scale := 1.2 }

/-- A round in progress (start time 0) with the "it" player `A` and the last
untagged player `P`. -/
def c2State : GameState :=
  { baseState with
    isGameActive := true, roundStartTime := some 0, roundNumber := 1,
    players := [("A", c2PlayerA), ("P", basePlayer "P")] }

/-- C2 (counterexample): when `A` tags the last untagged player `P` at
`t = 45000`, `tagPlayer` records `survivalTimes[P] = 45000` and the untagged
set becomes empty (so `endRound` is scheduled), but `endRound` rebuilds the
record only over players that are not "it" — `P` now is "it", so the frozen
record contains no entry for `P`, not `45000`. -/
theorem C2_counterexample :
    mapLookup (tagPlayer c2State "P" "A" 45000).survivalTimes "P" =
      some 45000 ∧
    untaggedAliveCount (tagPlayer c2State "P" "A" 45000).players = 0 ∧
    mapLookup
      (endRound (tagPlayer c2State "P" "A" 45000) 46000).survivalTimes "P" =
      none :=
  ⟨by decide, by decide, by decide⟩

/-- C2 (amended): the frozen record of `endRound` maps exactly the players
that are not "it" at that moment to `(taggedTime || now) - (roundStart || 0)`
and contains no entry for "it" players; the last untagged player's survival
time (45000 in the scenario) is written into `survivalTimes` by `tagPlayer`
at tag time, but that entry is discarded when `endRound` replaces the map,
because the player is "it" by then. -/
theorem C2_endRound_survival :
    (∀ (s : GameState) (now : Int) (id : String) (p : Player),
      (s.players.map Prod.fst).Nodup →
      mapLookup s.players id = some p →
      (p.isIt = false →
        mapLookup (endRound s now).survivalTimes id =
          some (jsOr p.taggedTime now - jsOr s.roundStartTime 0)) ∧
      (p.isIt = true →
        mapLookup (endRound s now).survivalTimes id = none)) ∧
    mapLookup (tagPlayer c2State "P" "A" 45000).survivalTimes "P" =
      some 45000 ∧
    untaggedAliveCount (tagPlayer c2State "P" "A" 45000).players = 0 := by
  refine ⟨?_, by decide, by decide⟩
  intro s now id p hnd hp
  constructor
  · intro hfalse
    rw [endRound_survivalTimes]
    exact mapLookup_filterMapIf_pos s.players (fun v => !v.isIt)
      (fun _ v => jsOr v.taggedTime now - jsOr s.roundStartTime 0) id p hp
      (by show (!p.isIt) = true; rw [hfalse]; rfl)
  · intro htrue
    rw [endRound_survivalTimes]
    exact mapLookup_filterMapIf_neg s.players (fun v => !v.isIt)
      (fun _ v => jsOr v.taggedTime now - jsOr s.roundStartTime 0) id p hnd hp
      (by show (!p.isIt) = false; rw [htrue]; rfl)

/-- C2 witness: the amended theorem at the concrete round `c2State` — the
untagged player `P` (never tagged, so `taggedTime` is `null`) gets
`now - roundStart = 46000`, and the "it" player `A` gets no entry. -/
theorem C2_endRound_survival_witness :
    mapLookup (endRound c2State 46000).survivalTimes "P" =
      some (jsOr (basePlayer "P").taggedTime 46000 -
        jsOr c2State.roundStartTime 0) ∧
    mapLookup (endRound c2State 46000).survivalTimes "A" = none :=
  ⟨(C2_endRound_survival.1 c2State 46000 "P" (basePlayer "P") (by decide)
      rfl).1 rfl,
   (C2_endRound_survival.1 c2State 46000 "A" c2PlayerA (by decide)
      rfl).2 rfl⟩

/-- The "it" tagger of the C3 state. -/
def c3Tagger : Player :=
  { basePlayer "T" with isIt := true, taggedTime := some 1, scale := 1.2 }

/-- An untagged, alive candidate whose flight power-up window is active. -/
def c3Candidate : Player :=
  { basePlayer "C" with
    powerUp := some PowerUpKind.flight, powerUpEndTime := some 99999 }

def c3State : GameState :=
  { baseState with
    isGameActive := true, roundStartTime := some 0,
    players := [("T", c3Tagger), ("C", c3Candidate)] }

/-- C3 (counterexample): the claim says `tagPlayer` changes state only when
the candidate has no active flight power-up, but `tagPlayer` never inspects
the power-up: at `now = 0`, `C`'s flight window is active and the call still
makes `C` "it". -/
theorem C3_counterexample :
    kindActive PowerUpKind.flight c3Candidate 0 = true ∧
    (mapLookup (tagPlayer c3State "C" "T" 0).players "C").map Player.isIt =
      some true :=
  ⟨by decide, by decide⟩

/-- C3 (amended): `tagPlayer` changes state exactly when both ids resolve,
the tagger is "it", and the candidate is neither "it" nor dead; every other
case (either id missing, candidate already "it", tagger not "it", candidate
dead) returns the state unchanged and raises no error.  The flight-immunity
precondition is not checked by `tagPlayer`: it is enforced by the caller —
`Blob`'s `checkCollisions` skips flight-active candidates before invoking
`tagPlayer`. -/
theorem C3_tagPlayer_guard :
    (∀ (s : GameState) (taggedId taggerId : String) (now : Int),
      mapLookup s.players taggedId = none →
      tagPlayer s taggedId taggerId now = s) ∧
    (∀ (s : GameState) (taggedId taggerId : String) (now : Int),
      mapLookup s.players taggerId = none →
      tagPlayer s taggedId taggerId now = s) ∧
    (∀ (s : GameState) (taggedId taggerId : String) (now : Int)
        (tp gp : Player),
      mapLookup s.players taggedId = some tp →
      mapLookup s.players taggerId = some gp →
      (tp.isIt = true ∨ gp.isIt = false ∨ tp.isAlive = false) →
      tagPlayer s taggedId taggerId now = s) ∧
    (∀ (s : GameState) (taggedId taggerId : String) (now : Int)
        (tp gp : Player),
      mapLookup s.players taggedId = some tp →
      mapLookup s.players taggerId = some gp →
      tp.isIt = false → gp.isIt = true → tp.isAlive = true →
      (mapLookup (tagPlayer s taggedId taggerId now).players taggedId).map
        Player.isIt = some true) ∧
    (∀ (selfId : String) (other : Player) (isLocalPlayer : Bool) (now : Int),
      kindActive PowerUpKind.flight other now = true →
      blobSkipsCandidate selfId other isLocalPlayer now = true) := by
  refine ⟨?_, ?_, ?_, ?_, ?_⟩
  · intro s taggedId taggerId now h
    unfold tagPlayer
    rw [h]
  · intro s taggedId taggerId now h
    unfold tagPlayer
    rw [h]
    cases mapLookup s.players taggedId <;> rfl
  · intro s taggedId taggerId now tp gp htp hgp hcond
    rw [tagPlayer_eq_of_lookups s taggedId taggerId now tp gp htp hgp]
    have : (tp.isIt || !gp.isIt || !tp.isAlive) = true := by
      rcases hcond with h | h | h <;> simp [h]
    rw [if_pos this]
  · intro s taggedId taggerId now tp gp htp hgp h1 h2 h3
    have hne : taggedId ≠ taggerId := by
      intro he
      rw [he, hgp] at htp
      injection htp with htp
      rw [← htp] at h1
      rw [h2] at h1
      exact absurd h1 (by decide)
    rw [tagPlayer_eq_of_lookups s taggedId taggerId now tp gp htp hgp]
    have hcond : ¬((tp.isIt || !gp.isIt || !tp.isAlive) = true) := by
      simp [h1, h2, h3]
    rw [if_neg hcond]
    show Option.map Player.isIt
      (mapLookup
        (mapInsert (mapInsert s.players taggedId (taggedUpdate tp now))
          taggerId ({ gp with scale := tagPlayerNewScale s })) taggedId) =
      some true
    rw [mapLookup_mapInsert_ne _ _ _ _ hne, mapLookup_mapInsert_self]
    rfl
  · intro selfId other isLocalPlayer now h
    simp [blobSkipsCandidate, h]

/-- C3 witness: the guard theorem at the concrete state `c3State` — a call
with an unknown candidate id is a no-op, and the legal tag of `C` by `T`
(which `tagPlayer` accepts despite `C`'s active flight) flips `C` to "it". -/
theorem C3_tagPlayer_guard_witness :
    tagPlayer c3State "X" "T" 0 = c3State ∧
    tagPlayer c3State "T" "T" 0 = c3State ∧
    (mapLookup (tagPlayer c3State "C" "T" 0).players "C").map Player.isIt =
      some true ∧
    blobSkipsCandidate "T" c3Candidate false 0 = true :=
  ⟨C3_tagPlayer_guard.1 c3State "X" "T" 0 rfl,
   C3_tagPlayer_guard.2.2.1 c3State "T" "T" 0 c3Tagger c3Tagger rfl rfl
     (Or.inl rfl),
   C3_tagPlayer_guard.2.2.2.1 c3State "C" "T" 0 c3Candidate c3Tagger
     rfl rfl rfl rfl rfl,
   C3_tagPlayer_guard.2.2.2.2 "T" c3Candidate false 0 (by decide)⟩

/-- Lookup after an insert, given what the key held before. -/
theorem mapLookup_mapInsert_of_lookup {α : Type} (m : List (String × α))
    (k : String) (v : α) (id : String) (p : α)
    (h : mapLookup m id = some p) :
    mapLookup (mapInsert m k v) id = some (if k = id then v else p) := by
  by_cases he : id = k
  · subst he
    rw [mapLookup_mapInsert_self, if_pos rfl]
  · rw [mapLookup_mapInsert_ne _ _ _ _ he, h,
      if_neg fun hh => he hh.symm]

/-- Unfolding `updatePlayerPosition` when the player is missing. -/
theorem updatePlayerPosition_of_none (s : GameState) (id : String)
    (position : Vec3) (rotation : ℚ)
    (h : mapLookup s.players id = none) :
    updatePlayerPosition s id position rotation = s := by
  unfold updatePlayerPosition
  rw [h]

/-- Unfolding `updatePlayerPosition` when the player exists. -/
theorem updatePlayerPosition_of_some (s : GameState) (id : String)
    (position : Vec3) (rotation : ℚ) (p : Player)
    (h : mapLookup s.players id = some p) :
    updatePlayerPosition s id position rotation =
      { s with players := mapInsert s.players id ({ p with position := position, rotation := rotation }) } := by
  unfold updatePlayerPosition
  rw [h]

/-- Unfolding `collectPowerUp` once the two lookups are known. -/
theorem collectPowerUp_eq_of_lookups (s : GameState)
    (playerId powerUpId : String) (p : Player) (pu : PowerUp)
    (hp : mapLookup s.players playerId = some p)
    (hpu : mapLookup s.powerUps powerUpId = some pu) :
    collectPowerUp s playerId powerUpId =
      if p.isIt = true then s
      else
        { s with
          players := mapInsert s.players playerId ({ p with powerUp := pu.type }),
          powerUps := mapErase s.powerUps powerUpId } := by
  unfold collectPowerUp
  rw [hp, hpu]

/-- Unfolding `activatePowerUp` when the player exists. -/
theorem activatePowerUp_of_some (s : GameState) (playerId : String)
    (now : Int) (p : Player) (hp : mapLookup s.players playerId = some p) :
    activatePowerUp s playerId now =
      if (p.powerUp == none || jsTruthy p.powerUpEndTime) = true then s
      else
        { s with players := mapInsert s.players playerId ({ p with powerUpEndTime := some (now + 5000) }) } := by
  unfold activatePowerUp
  rw [hp]

/-- Unfolding `activatePowerUp` when the player is missing. -/
theorem activatePowerUp_of_none (s : GameState) (playerId : String)
    (now : Int) (hp : mapLookup s.players playerId = none) :
    activatePowerUp s playerId now = s := by
  unfold activatePowerUp
  rw [hp]

/-- Unfolding the expiry-timeout body when the player exists. -/
theorem deactivatePowerUp_of_some (s : GameState) (playerId : String)
    (p : Player) (hp : mapLookup s.players playerId = some p) :
    deactivatePowerUp s playerId =
      { s with players := mapInsert s.players playerId ({ p with powerUp := none, powerUpEndTime := none }) } := by
  unfold deactivatePowerUp
  rw [hp]

/-- A player holding a speed power-up (armed, not yet activated). -/
def c4Holder : Player :=
  { basePlayer "H" with powerUp := some PowerUpKind.speed }

def c4PowerUp : PowerUp :=
  { id := "pu2", type := some PowerUpKind.invisibility,
    position := ⟨2, 1, 0⟩, createdAt := 100 }

def c4State : GameState :=
  { baseState with
    isGameActive := true, players := [("H", c4Holder)],
    powerUps := [("pu2", c4PowerUp)] }

/-- C4 (counterexample): `H` already holds `speed`; collecting `pu2`
(`invisibility`) is not a no-op — the held power-up is overwritten with
`invisibility` and the pickup is removed from the pool. -/
theorem C4_counterexample :
    (mapLookup c4State.players "H").map Player.powerUp =
      some (some PowerUpKind.speed) ∧
    (mapLookup (collectPowerUp c4State "H" "pu2").players "H").map
      Player.powerUp = some (some PowerUpKind.invisibility) ∧
    mapLookup (collectPowerUp c4State "H" "pu2").powerUps "pu2" = none :=
  ⟨rfl, rfl, rfl⟩

/-- C4 (amended): at most one power-up is held at any time (the `powerUp`
field is single-valued), but `collectPowerUp` does not reject a holder: for
any untagged collector — holding or not — it overwrites `powerUp` with the
pickup's kind and consumes the pickup.  The hold-check exists only in the
alternate `PowerUp` component's collision predicate, which skips players
with a held power-up; the canonical `PowerUp.tsx` predicate does not check
holding (`c4Holder`, 2 units away, passes it). -/
theorem C4_collect_overwrites :
    (∀ (p : Player) (k1 k2 : PowerUpKind),
      p.powerUp = some k1 → p.powerUp = some k2 → k1 = k2) ∧
    (∀ (s : GameState) (playerId powerUpId : String) (p : Player)
        (pu : PowerUp),
      mapLookup s.players playerId = some p →
      mapLookup s.powerUps powerUpId = some pu →
      p.isIt = false →
      (mapLookup (collectPowerUp s playerId powerUpId).players
        playerId).map Player.powerUp = some pu.type ∧
      mapLookup (collectPowerUp s playerId powerUpId).powerUps powerUpId =
        none) ∧
    (∀ (p : Player) (puPosition : Vec3),
      p.powerUp ≠ none → powerUpCollisionCollects p puPosition = false) ∧
    powerUpComponentCollects c4Holder ⟨2, 1, 0⟩ = true := by
  refine ⟨?_, ?_, ?_, ?_⟩
  · intro p k1 k2 h1 h2
    rw [h1] at h2
    injection h2
  · intro s playerId powerUpId p pu hp hpu hit
    rw [collectPowerUp_eq_of_lookups s playerId powerUpId p pu hp hpu,
      if_neg (by simp [hit])]
    constructor
    · show (mapLookup (mapInsert s.players playerId
        ({ p with powerUp := pu.type })) playerId).map Player.powerUp =
        some pu.type
      rw [mapLookup_mapInsert_self]
      rfl
    · show mapLookup (mapErase s.powerUps powerUpId) powerUpId = none
      exact mapLookup_mapErase_self _ _
  · intro p puPosition h
    cases hpu : p.powerUp with
    | none => exact absurd hpu h
    | some k => simp [powerUpCollisionCollects, hpu]
  · show (!c4Holder.isIt && c4Holder.isAlive &&
      decide (distSq c4Holder.position ⟨2, 1, 0⟩ < (2.5 : ℚ) ^ 2)) = true
    norm_num [c4Holder, basePlayer, distSq]

/-- C4 witness: the overwrite semantics applied at `c4State` (a holder
collecting a second pickup), and the alternate component's guard applied to
the holder. -/
theorem C4_collect_overwrites_witness :
    ((mapLookup (collectPowerUp c4State "H" "pu2").players "H").map
        Player.powerUp = some c4PowerUp.type ∧
      mapLookup (collectPowerUp c4State "H" "pu2").powerUps "pu2" = none) ∧
    powerUpCollisionCollects c4Holder ⟨2, 1, 0⟩ = false :=
  ⟨C4_collect_overwrites.2.1 c4State "H" "pu2" c4Holder c4PowerUp rfl rfl rfl,
   C4_collect_overwrites.2.2.1 c4Holder ⟨2, 1, 0⟩ (by decide)⟩

/-- Two lookups of the same key agree. -/
theorem mapLookup_some_inj {α : Type} (m : List (String × α)) (k : String)
    (q p : α) (hq : mapLookup m k = some q) (hp : mapLookup m k = some p) :
    q = p := by
  rw [hq] at hp
  injection hp

/-- If a key held an "it" player, it still holds an "it" player after an
insert whose value is "it" whenever it lands on that key. -/
theorem isIt_after_insert (m : List (String × Player)) (k : String)
    (v : Player) (id : String) (p : Player)
    (hp : mapLookup m id = some p) (hit : p.isIt = true)
    (hv : k = id → v.isIt = true) :
    (mapLookup (mapInsert m k v) id).map Player.isIt = some true := by
  rw [mapLookup_mapInsert_of_lookup m k v id p hp]
  by_cases he : k = id
  · rw [if_pos he]
    simp [hv he]
  · rw [if_neg he]
    simp [hit]

/-- C5 (counterexample): in `c2State` the player `A` is "it";
`addNetworkPlayer` applied with a network payload carrying `A`'s id and
`isIt = false` overwrites the record and reverts `A` to untagged, although
neither `startGame` nor `syncRoundStart` ran. -/
theorem C5_counterexample :
    (mapLookup c2State.players "A").map Player.isIt = some true ∧
    (mapLookup (addNetworkPlayer c2State (basePlayer "A")).players "A").map
      Player.isIt = some false :=
  ⟨rfl, rfl⟩

/-- C5 (amended): every gameplay operation of the store —
`updatePlayerPosition`, `tagPlayer`, `collectPowerUp`, `activatePowerUp`,
the power-up expiry timeout, `moveBots`, `endRound`, `addPowerUp`,
`addPlayer` (under a fresh id) and `removePlayer` (of another id) — keeps an
"it" player "it"; besides `startGame` and `syncRoundStart`, however,
`addNetworkPlayer` can also set an existing player's `isIt` back to `false`,
because it overwrites the record with the network payload. -/
theorem C5_isIt_monotone :
    (∀ (s : GameState) (pid : String) (pos : Vec3) (rot : ℚ) (id : String)
        (p : Player),
      mapLookup s.players id = some p → p.isIt = true →
      (mapLookup (updatePlayerPosition s pid pos rot).players id).map
        Player.isIt = some true) ∧
    (∀ (s : GameState) (taggedId taggerId : String) (now : Int) (id : String)
        (p : Player),
      mapLookup s.players id = some p → p.isIt = true →
      (mapLookup (tagPlayer s taggedId taggerId now).players id).map
        Player.isIt = some true) ∧
    (∀ (s : GameState) (playerId powerUpId : String) (id : String)
        (p : Player),
      mapLookup s.players id = some p → p.isIt = true →
      (mapLookup (collectPowerUp s playerId powerUpId).players id).map
        Player.isIt = some true) ∧
    (∀ (s : GameState) (playerId : String) (now : Int) (id : String)
        (p : Player),
      mapLookup s.players id = some p → p.isIt = true →
      (mapLookup (activatePowerUp s playerId now).players id).map
        Player.isIt = some true) ∧
    (∀ (s : GameState) (playerId : String) (id : String) (p : Player),
      mapLookup s.players id = some p → p.isIt = true →
      (mapLookup (deactivatePowerUp s playerId).players id).map
        Player.isIt = some true) ∧
    (∀ (s : GameState) (norm : Vec3 → Vec3) (at2 : ℚ → ℚ → ℚ)
        (rnd : String → ℚ × ℚ) (id : String) (p : Player),
      mapLookup s.players id = some p → p.isIt = true →
      (mapLookup (moveBots s norm at2 rnd).players id).map Player.isIt =
        some true) ∧
    (∀ (s : GameState) (now : Int), (endRound s now).players = s.players) ∧
    (∀ (s : GameState) (t : Option PowerUpKind) (pos : Vec3) (puid : String)
        (now : Int), (addPowerUp s t pos puid now).players = s.players) ∧
    (∀ (s : GameState) (typ : PlayerType) (np : Player) (id : String)
        (p : Player),
      id ≠ np.id → mapLookup s.players id = some p → p.isIt = true →
      (mapLookup (addPlayer s typ np).players id).map Player.isIt =
        some true) ∧
    (∀ (s : GameState) (rid : String) (id : String) (p : Player),
      id ≠ rid → mapLookup s.players id = some p → p.isIt = true →
      (mapLookup (removePlayer s rid).players id).map Player.isIt =
        some true) := by
  refine ⟨?_, ?_, ?_, ?_, ?_, ?_, fun s now => rfl, fun s t pos puid now => rfl,
    ?_, ?_⟩
  · intro s pid pos rot id p hp hit
    cases hq : mapLookup s.players pid with
    | none =>
        rw [updatePlayerPosition_of_none s pid pos rot hq, hp]
        simp [hit]
    | some q =>
        rw [updatePlayerPosition_of_some s pid pos rot q hq]
        apply isIt_after_insert s.players pid _ id p hp hit
        intro he
        subst he
        show q.isIt = true
        rw [mapLookup_some_inj s.players pid q p hq hp]
        exact hit
  · intro s taggedId taggerId now id p hp hit
    cases htp : mapLookup s.players taggedId with
    | none =>
        have : tagPlayer s taggedId taggerId now = s := by
          unfold tagPlayer
          rw [htp]
        rw [this, hp]
        simp [hit]
    | some tp =>
        cases hgp : mapLookup s.players taggerId with
        | none =>
            have : tagPlayer s taggedId taggerId now = s := by
              unfold tagPlayer
              rw [htp, hgp]
            rw [this, hp]
            simp [hit]
        | some gp =>
            rw [tagPlayer_eq_of_lookups s taggedId taggerId now tp gp htp hgp]
            by_cases hguard : (tp.isIt || !gp.isIt || !tp.isAlive) = true
            · rw [if_pos hguard, hp]
              simp [hit]
            · rw [if_neg hguard]
              have hinner :
                  mapLookup
                    (mapInsert s.players taggedId (taggedUpdate tp now)) id =
                    some (if taggedId = id then taggedUpdate tp now else p) :=
                mapLookup_mapInsert_of_lookup s.players taggedId _ id p hp
              refine isIt_after_insert _ taggerId _ id _ hinner ?_ ?_
              · by_cases he : taggedId = id
                · rw [if_pos he]; rfl
                · rw [if_neg he]; exact hit
              · intro he
                subst he
                show gp.isIt = true
                rw [mapLookup_some_inj s.players taggerId gp p hgp hp]
                exact hit
  · intro s playerId powerUpId id p hp hit
    cases hq : mapLookup s.players playerId with
    | none =>
        have : collectPowerUp s playerId powerUpId = s := by
          unfold collectPowerUp
          rw [hq]
        rw [this, hp]
        simp [hit]
    | some q =>
        cases hpu : mapLookup s.powerUps powerUpId with
        | none =>
            have : collectPowerUp s playerId powerUpId = s := by
              unfold collectPowerUp
              rw [hq, hpu]
            rw [this, hp]
            simp [hit]
        | some pu =>
            rw [collectPowerUp_eq_of_lookups s playerId powerUpId q pu hq hpu]
            by_cases hguard : q.isIt = true
            · rw [if_pos hguard, hp]
              simp [hit]
            · rw [if_neg hguard]
              apply isIt_after_insert s.players playerId _ id p hp hit
              intro he
              subst he
              show q.isIt = true
              rw [mapLookup_some_inj s.players playerId q p hq hp]
              exact hit
  · intro s playerId now id p hp hit
    cases hq : mapLookup s.players playerId with
    | none =>
        rw [activatePowerUp_of_none s playerId now hq, hp]
        simp [hit]
    | some q =>
        rw [activatePowerUp_of_some s playerId now q hq]
        by_cases hguard : (q.powerUp == none || jsTruthy q.powerUpEndTime) =
            true
        · rw [if_pos hguard, hp]
          simp [hit]
        · rw [if_neg hguard]
          apply isIt_after_insert s.players playerId _ id p hp hit
          intro he
          subst he
          show q.isIt = true
          rw [mapLookup_some_inj s.players playerId q p hq hp]
          exact hit
  · intro s playerId id p hp hit
    cases hq : mapLookup s.players playerId with
    | none =>
        have : deactivatePowerUp s playerId = s := by
          unfold deactivatePowerUp
          rw [hq]
        rw [this, hp]
        simp [hit]
    | some q =>
        rw [deactivatePowerUp_of_some s playerId q hq]
        apply isIt_after_insert s.players playerId _ id p hp hit
        intro he
        subst he
        show q.isIt = true
        rw [mapLookup_some_inj s.players playerId q p hq hp]
        exact hit
  · intro s norm at2 rnd id p hp hit
    rw [mapLookup_moveBots, hp]
    by_cases hc : (p.type == PlayerType.bot && p.isAlive) = true
    · simp only [Option.map_some', hc, if_true]
      rw [(moveBotStep_frame p (moveBotsHumans s) (moveBotsIts s) norm at2
        (rnd id)).2.2.1, hit]
    · simp only [Option.map_some', hc]
      simp [hit]
  · intro s typ np id p hne hp hit
    show (mapLookup (mapInsert s.players np.id np) id).map Player.isIt =
      some true
    rw [mapLookup_mapInsert_ne _ _ _ _ (fun hh => hne hh), hp]
    simp [hit]
  · intro s rid id p hne hp hit
    show (mapLookup (mapErase s.players rid) id).map Player.isIt = some true
    rw [mapLookup_mapErase_ne _ _ _ hne, hp]
    simp [hit]

/-- C5 witness: the monotonicity theorem at the concrete round `c2State`
(whose "it" player is `A`): moving, a failed tag, a bot tick and removing
the other player all keep `A` "it". -/
theorem C5_isIt_monotone_witness :
    (mapLookup (updatePlayerPosition c2State "P" ⟨2, 1, 2⟩ 0).players
      "A").map Player.isIt = some true ∧
    (mapLookup (tagPlayer c2State "A" "P" 5).players "A").map Player.isIt =
      some true ∧
    (mapLookup (moveBots c2State constNorm constAtan2 constRand).players
      "A").map Player.isIt = some true ∧
    (mapLookup (removePlayer c2State "P").players "A").map Player.isIt =
      some true :=
  ⟨C5_isIt_monotone.1 c2State "P" ⟨2, 1, 2⟩ 0 "A" c2PlayerA rfl rfl,
   C5_isIt_monotone.2.1 c2State "A" "P" 5 "A" c2PlayerA rfl rfl,
   C5_isIt_monotone.2.2.2.2.2.1 c2State constNorm constAtan2 constRand "A"
     c2PlayerA rfl rfl,
   C5_isIt_monotone.2.2.2.2.2.2.2.2.2 c2State "P" "A" c2PlayerA
     (by decide) rfl rfl⟩

def c6State : GameState :=
  { baseState with players := [("P1", basePlayer "P1")] }

/-- The four bot records the `addPlayer('bot')` loop generates for a
1-player round start. -/
def c6Bots : List Player :=
  [{ basePlayer "b1" with type := PlayerType.bot },
   { basePlayer "b2" with type := PlayerType.bot },
   { basePlayer "b3" with type := PlayerType.bot },
   { basePlayer "b4" with type := PlayerType.bot }]

/-- C6: with exactly 1 registered player, `startGame` does call
`addPlayer('bot')` 4 times (the interim store holds 5 players), but it chose
`itPlayerId` from the `players` snapshot taken before the bots were added,
and its final `set` overwrites the players map with `updatedPlayers` — also
built from that snapshot.  The round therefore begins with exactly 1
participant, the original player, who is always "it" (the random index
ranges over the single-element snapshot). -/
theorem C6_startGame_discards_bots :
    (startGameAddBots c6State.players c6Bots).length = 5 ∧
    (startGame c6State c6Bots 0 1000).players.length = 1 ∧
    (mapLookup (startGame c6State c6Bots 0 1000).players "P1").map
      Player.isIt = some true :=
  ⟨by decide, by decide, by decide⟩

/-- A player whose speed power-up window is active until `t = 10000`. -/
def c7Speedster : Player :=
  { basePlayer "S" with
    powerUp := some PowerUpKind.speed, powerUpEndTime := some 10000 }

def c7State : GameState :=
  { baseState with isGameActive := true, players := [("S", c7Speedster)] }

/-- C7 (counterexample): in the alternate store's `updatePlayerPosition`, an
active speed power-up multiplies the relayed movement delta by 3, not 1.5:
moving from x = 0 toward x = 1 lands at x = 3, where a 1.5 multiplier
would land at 1.5. -/
theorem C7_counterexample :
    (mapLookup (updatePlayerPositionAlt c7State "S" ⟨1, 1, 0⟩ 0 0).players
      "S").map Player.position = some ⟨3, 1, 0⟩ ∧
    (3 : ℚ) ≠ (0 : ℚ) + 1.5 * (1 - 0) := by
  constructor
  · have hval : updateAltNewPosition c7Speedster ⟨1, 1, 0⟩ 0 = ⟨3, 1, 0⟩ := by
      unfold updateAltNewPosition
      rw [if_pos (show anyActive c7Speedster 0 = true by decide),
        if_pos (show (c7Speedster.powerUp == some PowerUpKind.speed) = true
          by decide)]
      show Vec3.add c7Speedster.position
        (Vec3.smul 3 (Vec3.sub ⟨1, 1, 0⟩ c7Speedster.position)) = ⟨3, 1, 0⟩
      simp only [Vec3.add, Vec3.sub, Vec3.smul, c7Speedster, basePlayer]
      norm_num
    have hl : mapLookup (updatePlayerPositionAlt c7State "S" ⟨1, 1, 0⟩ 0
        0).players "S" =
        some ({ c7Speedster with
          position := updateAltNewPosition c7Speedster ⟨1, 1, 0⟩ 0,
          rotation := 0 }) := by
      show mapLookup (mapInsert c7State.players "S"
        ({ c7Speedster with
          position := updateAltNewPosition c7Speedster ⟨1, 1, 0⟩ 0,
          rotation := 0 })) "S" = _
      rw [mapLookup_mapInsert_self]
    rw [hl]
    show some (updateAltNewPosition c7Speedster ⟨1, 1, 0⟩ 0) =
      some (⟨3, 1, 0⟩ : Vec3)
    rw [hval]
  · norm_num

/-- C7 (amended): in the `Blob` keyboard movement, the speed factor is
applied exactly while the speed window is active and multiplies the movement
speed by exactly 1.5 (on top of the base `0.1`, times `1.1` for "it"
players); outside the window no speed factor is applied.  The canonical
`updatePlayerPosition` applies no multiplier at all — it stores the supplied
position verbatim; only the alternate iteration multiplies the relayed delta
(by 3, see the counterexample). -/
theorem C7_speed_multiplier :
    (∀ (p : Player) (now : Int),
      kindActive PowerUpKind.speed p now = true →
      blobComputeSpeed p now =
        1.5 * (if p.isIt then (0.1 : ℚ) * 1.1 else 0.1)) ∧
    (∀ (p : Player) (now : Int),
      kindActive PowerUpKind.speed p now = false →
      blobComputeSpeed p now = (if p.isIt then (0.1 : ℚ) * 1.1 else 0.1)) ∧
    (∀ (s : GameState) (id : String) (pos : Vec3) (rot : ℚ) (p : Player),
      mapLookup s.players id = some p →
      (mapLookup (updatePlayerPosition s id pos rot).players id).map
        Player.position = some pos) := by
  refine ⟨?_, ?_, ?_⟩
  · intro p now h
    simp only [blobComputeSpeed, h, if_true]
    rw [mul_comm]
  · intro p now h
    simp only [blobComputeSpeed, h, Bool.false_eq_true, if_false]
  · intro s id pos rot p hp
    rw [updatePlayerPosition_of_some s id pos rot p hp]
    show (mapLookup (mapInsert s.players id
      ({ p with position := pos, rotation := rot })) id).map Player.position =
      some pos
    rw [mapLookup_mapInsert_self]
    rfl

/-- C7 witness: the multiplier theorem at concrete players — `c7Speedster`
(active window at `now = 0`), a plain player (no window), and a concrete
`updatePlayerPosition` call. -/
theorem C7_speed_multiplier_witness :
    blobComputeSpeed c7Speedster 0 =
      1.5 * (if c7Speedster.isIt then (0.1 : ℚ) * 1.1 else 0.1) ∧
    blobComputeSpeed (basePlayer "P") 0 =
      (if (basePlayer "P").isIt then (0.1 : ℚ) * 1.1 else 0.1) ∧
    (mapLookup (updatePlayerPosition c7State "S" ⟨5, 1, 5⟩ 0).players
      "S").map Player.position = some ⟨5, 1, 5⟩ :=
  ⟨C7_speed_multiplier.1 c7Speedster 0 (by decide),
   C7_speed_multiplier.2.1 (basePlayer "P") 0 (by decide),
   C7_speed_multiplier.2.2 c7State "S" ⟨5, 1, 5⟩ 0 c7Speedster rfl⟩

/-- A player holding an armed speed power-up (`powerUpEndTime = null`). -/
def c8Armed : Player :=
  { basePlayer "M" with powerUp := some PowerUpKind.speed }

def c8State : GameState :=
  { baseState with isGameActive := true, players := [("M", c8Armed)] }

def c8Pickup : PowerUp :=
  { id := "pu1", type := some PowerUpKind.speed, position := ⟨3, 1, 3⟩,
    createdAt := 50 }

/-- A clean player next to a pickup, for the alternate store's collection. -/
def c8AltState : GameState :=
  { baseState with
    isGameActive := true, players := [("N", basePlayer "N")],
    powerUps := [("pu1", c8Pickup)] }

/-- C8 (counterexample): the claim says activation happens only through the
explicit `activatePowerUp` action, never automatically on collection; the
alternate store's `collectPowerUp` activates on the spot — right after the
collection at `now = 0` the player's `powerUpEndTime` is `5000`, not
`null`. -/
theorem C8_counterexample :
    (mapLookup c8AltState.players "N").map Player.powerUpEndTime =
      some none ∧
    (mapLookup (collectPowerUpAlt c8AltState "N" "pu1" "pu9"
      (some PowerUpKind.speed) ⟨5, 1, 5⟩ 0).players "N").map
      Player.powerUpEndTime = some (some 5000) :=
  ⟨rfl, rfl⟩

/-- C8 (amended): `activatePowerUp` is a no-op unless the player exists and
holds an armed power-up with `powerUpEndTime = null`; when the precondition
holds it sets `powerUpEndTime = now + 5000`, and the expiry timeout
scheduled 5000 ms later clears both the power-up and its end time.  In the
canonical store, collection never activates (`collectPowerUp` leaves
`powerUpEndTime` untouched); the alternate iteration's `collectPowerUp`
auto-activates on collection (see the counterexample). -/
theorem C8_activate_semantics :
    (∀ (s : GameState) (playerId : String) (now : Int),
      mapLookup s.players playerId = none →
      activatePowerUp s playerId now = s) ∧
    (∀ (s : GameState) (playerId : String) (now : Int) (p : Player),
      mapLookup s.players playerId = some p → p.powerUp = none →
      activatePowerUp s playerId now = s) ∧
    (∀ (s : GameState) (playerId : String) (now : Int) (p : Player),
      mapLookup s.players playerId = some p →
      jsTruthy p.powerUpEndTime = true →
      activatePowerUp s playerId now = s) ∧
    (∀ (s : GameState) (playerId : String) (now : Int) (p : Player)
        (k : PowerUpKind),
      mapLookup s.players playerId = some p → p.powerUp = some k →
      jsTruthy p.powerUpEndTime = false →
      (mapLookup (activatePowerUp s playerId now).players playerId).map
        Player.powerUpEndTime = some (some (now + 5000))) ∧
    (∀ (s : GameState) (playerId powerUpId : String) (p : Player)
        (pu : PowerUp),
      mapLookup s.players playerId = some p →
      mapLookup s.powerUps powerUpId = some pu → p.isIt = false →
      (mapLookup (collectPowerUp s playerId powerUpId).players
        playerId).map Player.powerUpEndTime = some p.powerUpEndTime) ∧
    (∀ (s : GameState) (playerId : String) (p : Player),
      mapLookup s.players playerId = some p →
      (mapLookup (deactivatePowerUp s playerId).players playerId).map
          Player.powerUp = some none ∧
      (mapLookup (deactivatePowerUp s playerId).players playerId).map
          Player.powerUpEndTime = some none) := by
  refine ⟨?_, ?_, ?_, ?_, ?_, ?_⟩
  · intro s playerId now h
    exact activatePowerUp_of_none s playerId now h
  · intro s playerId now p hp hpu
    rw [activatePowerUp_of_some s playerId now p hp,
      if_pos (by simp [hpu])]
  · intro s playerId now p hp hend
    rw [activatePowerUp_of_some s playerId now p hp,
      if_pos (by simp [hend])]
  · intro s playerId now p k hp hpu hend
    rw [activatePowerUp_of_some s playerId now p hp,
      if_neg (by simp [hpu, hend])]
    show (mapLookup (mapInsert s.players playerId
      ({ p with powerUpEndTime := some (now + 5000) })) playerId).map
      Player.powerUpEndTime = some (some (now + 5000))
    rw [mapLookup_mapInsert_self]
    rfl
  · intro s playerId powerUpId p pu hp hpu hit
    rw [collectPowerUp_eq_of_lookups s playerId powerUpId p pu hp hpu,
      if_neg (by simp [hit])]
    show (mapLookup (mapInsert s.players playerId
      ({ p with powerUp := pu.type })) playerId).map Player.powerUpEndTime =
      some p.powerUpEndTime
    rw [mapLookup_mapInsert_self]
    rfl
  · intro s playerId p hp
    rw [deactivatePowerUp_of_some s playerId p hp]
    constructor
    · show (mapLookup (mapInsert s.players playerId
        ({ p with powerUp := none, powerUpEndTime := none }))
        playerId).map Player.powerUp = some none
      rw [mapLookup_mapInsert_self]
      rfl
    · show (mapLookup (mapInsert s.players playerId
        ({ p with powerUp := none, powerUpEndTime := none }))
        playerId).map Player.powerUpEndTime = some none
      rw [mapLookup_mapInsert_self]
      rfl

/-- C8 witness: the activation semantics at concrete states — a player with
no power-up (no-op), the armed holder `M` activated at `now = 100` (expiry
`5100`), the canonical collection leaving `powerUpEndTime` untouched, and
the expiry body clearing both fields. -/
theorem C8_activate_semantics_witness :
    activatePowerUp c8AltState "N" 0 = c8AltState ∧
    (mapLookup (activatePowerUp c8State "M" 100).players "M").map
      Player.powerUpEndTime = some (some (100 + 5000)) ∧
    (mapLookup (collectPowerUp c8AltState "N" "pu1").players "N").map
      Player.powerUpEndTime = some (basePlayer "N").powerUpEndTime ∧
    (mapLookup (deactivatePowerUp c8State "M").players "M").map
      Player.powerUp = some none :=
  ⟨C8_activate_semantics.2.1 c8AltState "N" 0 (basePlayer "N") rfl rfl,
   C8_activate_semantics.2.2.2.1 c8State "M" 100 c8Armed PowerUpKind.speed
     rfl rfl rfl,
   C8_activate_semantics.2.2.2.2.1 c8AltState "N" "pu1" (basePlayer "N")
     c8Pickup rfl rfl rfl,
   (C8_activate_semantics.2.2.2.2.2 c8State "M" c8Armed rfl).1⟩

/-- Player A of the C9 scenario: "it" at `(0,1,0)` with scale 1 and a set
`taggedTime` (every "it" player gets one at `startGame` or `tagPlayer`). -/
def c9A : Player :=
  { basePlayer "A" with isIt := true, taggedTime := some 1000 }

/-- Player B of the C9 scenario: untagged at `(1,1,0)` with scale 1. -/
def c9B : Player :=
  { basePlayer "B" with position := ⟨1, 1, 0⟩ }

def c9State : GameState :=
  { baseState with
    isGameActive := true, roundStartTime := some 1000,
    players := [("A", c9A), ("B", c9B)] }

/-- The tagger's scale after the C9 tag: `tagCount = 2` (A is "it" with a
set `taggedTime`), so `min(1 + 2*0.1, 2) = 1.2`. -/
theorem c9_tagger_scale :
    (mapLookup (tagPlayer c9State "B" "A" 46000).players "A").map
      Player.scale = some (1.2 : ℚ) := by
  have hmin : tagPlayerNewScale c9State = 1.2 := by
    unfold tagPlayerNewScale
    rw [show tagPlayerTagCount c9State = 2 from by decide]
    rw [min_eq_left (by norm_num)]
    norm_num
  have hl : mapLookup (tagPlayer c9State "B" "A" 46000).players "A" =
      some ({ c9A with scale := tagPlayerNewScale c9State }) := by
    rw [tagPlayer_eq_of_lookups c9State "B" "A" 46000 c9B c9A rfl rfl,
      if_neg (by decide)]
    show mapLookup (mapInsert
      (mapInsert c9State.players "B" (taggedUpdate c9B 46000)) "A"
      ({ c9A with scale := tagPlayerNewScale c9State })) "A" = _
    rw [mapLookup_mapInsert_self]
  rw [hl]
  show some (tagPlayerNewScale c9State) = some (1.2 : ℚ)
  rw [hmin]

/-- C9 (counterexample): in the scenario state the tagger A's scale after
the tag is 1.2, not the claimed 1.1 — A is the round's initial "it", so its
`taggedTime` is set and `tagCount = 1 + 1 = 2`, giving
`min(1 + 0.2, 2) = 1.2`. -/
theorem C9_counterexample :
    (mapLookup (tagPlayer c9State "B" "A" 46000).players "A").map
      Player.scale = some (1.2 : ℚ) ∧
    (1.2 : ℚ) ≠ 1.1 :=
  ⟨c9_tagger_scale, by norm_num⟩

/-- C9 (amended): with A ("it", scale 1, position `(0,1,0)`, `taggedTime`
set as for every "it" player) and B (untagged, scale 1, position
`(1,1,0)`): the squared distance 1 is below the squared effective collision
radius `(2.0 * (1+1)/2)^2 = 4`, the collision predicate fires and B is not
skipped, the tag succeeds, B becomes "it" with the fresh-"it" scale 1.1,
and A's scale increases from 1.0 to `min(1 + 2*0.1, 2) = 1.2` (`tagCount`
is 2, counting A itself), within the 2.0 cap. -/
theorem C9_tag_scenario :
    distSq c9A.position c9B.position = 1 ∧
    (2 * (c9A.scale + c9B.scale) / 2) ^ 2 = 4 ∧
    blobCollisionHit c9A c9B = true ∧
    blobSkipsCandidate "A" c9B true 46000 = false ∧
    (mapLookup (tagPlayer c9State "B" "A" 46000).players "B").map
      Player.isIt = some true ∧
    (mapLookup (tagPlayer c9State "B" "A" 46000).players "B").map
      Player.scale = some (1.1 : ℚ) ∧
    tagPlayerTagCount c9State = 2 ∧
    (mapLookup (tagPlayer c9State "B" "A" 46000).players "A").map
      Player.scale = some (1.2 : ℚ) ∧
    (1.2 : ℚ) ≤ 2 := by
  refine ⟨?_, ?_, ?_, by decide, ?_, ?_, by decide, c9_tagger_scale,
    by norm_num⟩
  · norm_num [distSq, c9A, c9B, basePlayer]
  · norm_num [c9A, c9B, basePlayer]
  · unfold blobCollisionHit
    rw [decide_eq_true_eq]
    norm_num [distSq, c9A, c9B, basePlayer]
  · rw [tagPlayer_eq_of_lookups c9State "B" "A" 46000 c9B c9A rfl rfl,
      if_neg (by decide)]
    show Option.map Player.isIt (mapLookup (mapInsert
      (mapInsert c9State.players "B" (taggedUpdate c9B 46000)) "A"
      ({ c9A with scale := tagPlayerNewScale c9State })) "B") = some true
    rw [mapLookup_mapInsert_ne _ _ _ _ (by decide), mapLookup_mapInsert_self]
    rfl
  · rw [tagPlayer_eq_of_lookups c9State "B" "A" 46000 c9B c9A rfl rfl,
      if_neg (by decide)]
    show Option.map Player.scale (mapLookup (mapInsert
      (mapInsert c9State.players "B" (taggedUpdate c9B 46000)) "A"
      ({ c9A with scale := tagPlayerNewScale c9State })) "B") =
      some (1.1 : ℚ)
    rw [mapLookup_mapInsert_ne _ _ _ _ (by decide), mapLookup_mapInsert_self]
    rfl

/-- C10 (confirmed): `moveBots` leaves every human player's record
untouched, changes at most `position` and `rotation` of any record, and
returns no update to the power-up pool, the round fields, `survivalTimes`
or `localPlayerId`. -/
theorem C10_moveBots_frame :
    (∀ (s : GameState) (norm : Vec3 → Vec3) (at2 : ℚ → ℚ → ℚ)
        (rnd : String → ℚ × ℚ) (id : String) (p : Player),
      mapLookup s.players id = some p → p.type = PlayerType.human →
      mapLookup (moveBots s norm at2 rnd).players id = some p) ∧
    (∀ (s : GameState) (norm : Vec3 → Vec3) (at2 : ℚ → ℚ → ℚ)
        (rnd : String → ℚ × ℚ) (id : String) (p : Player),
      mapLookup s.players id = some p →
      ∃ q, mapLookup (moveBots s norm at2 rnd).players id = some q ∧
        q.id = p.id ∧ q.color = p.color ∧ q.isIt = p.isIt ∧
        q.name = p.name ∧ q.type = p.type ∧ q.isAlive = p.isAlive ∧
        q.taggedTime = p.taggedTime ∧ q.powerUp = p.powerUp ∧
        q.powerUpEndTime = p.powerUpEndTime ∧ q.scale = p.scale) ∧
    (∀ (s : GameState) (norm : Vec3 → Vec3) (at2 : ℚ → ℚ → ℚ)
        (rnd : String → ℚ × ℚ),
      (moveBots s norm at2 rnd).powerUps = s.powerUps ∧
      (moveBots s norm at2 rnd).isGameActive = s.isGameActive ∧
      (moveBots s norm at2 rnd).roundStartTime = s.roundStartTime ∧
      (moveBots s norm at2 rnd).roundEndTime = s.roundEndTime ∧
      (moveBots s norm at2 rnd).roundDuration = s.roundDuration ∧
      (moveBots s norm at2 rnd).roundNumber = s.roundNumber ∧
      (moveBots s norm at2 rnd).survivalTimes = s.survivalTimes ∧
      (moveBots s norm at2 rnd).localPlayerId = s.localPlayerId) := by
  refine ⟨?_, ?_,
    fun s norm at2 rnd => ⟨rfl, rfl, rfl, rfl, rfl, rfl, rfl, rfl⟩⟩
  · intro s norm at2 rnd id p hp htype
    rw [mapLookup_moveBots, hp]
    have hc : (p.type == PlayerType.bot && p.isAlive) = false := by
      rw [htype]
      rfl
    simp only [Option.map_some', hc, Bool.false_eq_true, if_false]
  · intro s norm at2 rnd id p hp
    rw [mapLookup_moveBots, hp]
    by_cases hc : (p.type == PlayerType.bot && p.isAlive) = true
    · exact ⟨moveBotStep p (moveBotsHumans s) (moveBotsIts s) norm at2
        (rnd id),
        by simp only [Option.map_some', hc, if_true],
        moveBotStep_frame p (moveBotsHumans s) (moveBotsIts s) norm at2
          (rnd id)⟩
    · have hc2 : (p.type == PlayerType.bot && p.isAlive) = false := by
        cases hb : (p.type == PlayerType.bot && p.isAlive)
        · rfl
        · exact absurd hb hc
      exact ⟨p,
        by simp only [Option.map_some', hc2, Bool.false_eq_true, if_false],
        rfl, rfl, rfl, rfl, rfl, rfl, rfl, rfl, rfl, rfl⟩

/-- C10 witness: the frame theorem at concrete states — the human "it"
player of `c2State` is untouched by a bot tick, the bot of `c1BotState`
keeps all non-movement fields, and no other state field changes. -/
theorem C10_moveBots_frame_witness :
    mapLookup (moveBots c2State constNorm constAtan2 constRand).players
      "A" = some c2PlayerA ∧
    (∃ q, mapLookup (moveBots c1BotState constNorm constAtan2
        constRand).players "B" = some q ∧
      q.id = c1Bot.id ∧ q.color = c1Bot.color ∧ q.isIt = c1Bot.isIt ∧
      q.name = c1Bot.name ∧ q.type = c1Bot.type ∧
      q.isAlive = c1Bot.isAlive ∧ q.taggedTime = c1Bot.taggedTime ∧
      q.powerUp = c1Bot.powerUp ∧ q.powerUpEndTime = c1Bot.powerUpEndTime ∧
      q.scale = c1Bot.scale) ∧
    (moveBots c2State constNorm constAtan2 constRand).powerUps =
      c2State.powerUps :=
  ⟨C10_moveBots_frame.1 c2State constNorm constAtan2 constRand "A"
     c2PlayerA rfl rfl,
   C10_moveBots_frame.2.1 c1BotState constNorm constAtan2 constRand "B"
     c1Bot rfl,
   (C10_moveBots_frame.2.2 c2State constNorm constAtan2 constRand).1⟩

end TagTheBlob
